import Mathlib

/-!
Shallow embedding of the Maestro servo controller module (movement.py).

The Python class Controller owns a pyserial handle (self.usb) and three
24-entry state tables (Targets, Mins, Maxs). Each protocol operation
builds a command string and writes the lead-in plus device number plus
command bytes to the serial port; query operations then read response
bytes back. Here the controller object and the observable serial-port
state (closed flag, fault flag, bytes written so far, bytes the attached
device will answer with) form one record, and every operation returns the
updated record together with an Except value that models the Python
exception flow: mutations performed before a raise persist, statements
after it never run.

Byte values are Nat (all transmitted values are in 0..255; chr/ord and
the latin-1 bytes conversion in sendCmd are value-preserving in that
range). Table indexing uses List.getD and List.set, which agree with
Python list indexing on the in-range channels 0..23 that the caller
contract allows.
-/

/-- Error taxonomy of section 7 of the spec: transport failures, truncated
responses, and use after teardown. -/
inductive ControllerError where
  | transportError
  | protocolError
  | closedControllerError
deriving DecidableEq, Repr

/-- Python 3 runtime values that appear in the comparison inside
getMovingState: a str (list of code points) or a bytes object (list of
byte values). -/
inductive PyVal where
  | pystr (cs : List Nat)
  | pybytes (bs : List Nat)
deriving DecidableEq, Repr

/-- Python 3 equality between such values: equal only when both are str or
both are bytes with the same contents; a str never equals a bytes object. -/
def pyEq : PyVal → PyVal → Bool
  | .pystr a, .pystr b => a == b
  | .pybytes a, .pybytes b => a == b
  | _, _ => false

/-- The controller object plus the observable transport state. PololuCmd,
Targets, Mins, Maxs are the instance attributes of movement.py lines
35-42; usbClosed, usbFaulty, usbWritten, usbPending model the serial
port: whether close was called, whether the link faults on the next
write, the bytes written so far, and the bytes the attached device will
answer with. -/
structure Controller where
  PololuCmd : List Nat
  Targets : List Nat
  Mins : List Nat
  Maxs : List Nat
  usbClosed : Bool
  usbFaulty : Bool
  usbWritten : List Nat
  usbPending : List Nat
deriving DecidableEq, Repr

/-- Construction (movement.py lines 31-42): store the command lead-in 0xAA
plus the device number (default 0x0C) and zero-initialize the three
24-entry tables. The pending list holds the bytes the attached device
will send back to queries. -/
def Controller.init (device : Nat := 0x0c) (pending : List Nat := []) : Controller :=
  { PololuCmd := [0xaa, device]
    Targets := List.replicate 24 0
    Mins := List.replicate 24 0
    Maxs := List.replicate 24 0
    usbClosed := false
    usbFaulty := false
    usbWritten := []
    usbPending := pending }

/-- Teardown (movement.py lines 45-46): close the serial port. -/
def Controller.close (c : Controller) : Controller :=
  { c with usbClosed := true }

/-- Modelled from the spec: the transport write self.usb.write, which is
pyserial code outside this repository. Section 6 treats the transport as
write(bytes) returning a TransportError on failure, and section 4
teardown requires an operation after close to fail with
ClosedControllerError rather than silently no-op. A successful write
appends the whole byte sequence as one contiguous write. -/
def Controller.usbWrite (c : Controller) (bs : List Nat) :
    Controller × Except ControllerError Unit :=
  if c.usbClosed then (c, .error .closedControllerError)
  else if c.usbFaulty then (c, .error .transportError)
  else ({ c with usbWritten := c.usbWritten ++ bs }, .ok ())

/-- Modelled from the spec: the transport read self.usb.read, which is
pyserial code outside this repository. It yields the next byte the device
sent; a missing byte is the ProtocolError of section 7 (truncated or
desynchronized stream), and a read after close fails like a write. -/
def Controller.usbRead (c : Controller) : Controller × Except ControllerError Nat :=
  if c.usbClosed then (c, .error .closedControllerError)
  else
    match c.usbPending with
    | [] => (c, .error .protocolError)
    | b :: rest => ({ c with usbPending := rest }, .ok b)

/-- sendCmd (movement.py lines 49-54): prepend the lead-in and device
number and write the frame. The PY2 branch only chooses between str and
latin-1 encoded bytes, which transmit the same octets for values 0..255. -/
def Controller.sendCmd (c : Controller) (cmd : List Nat) :
    Controller × Except ControllerError Unit :=
  c.usbWrite (c.PololuCmd ++ cmd)

/-- setRange (movement.py lines 63-65): store both bounds locally, no
transmission. -/
def Controller.setRange (c : Controller) (chan mn mx : Nat) : Controller :=
  { c with Mins := c.Mins.set chan mn, Maxs := c.Maxs.set chan mx }

/-- getMin (movement.py lines 68-69). -/
def Controller.getMin (c : Controller) (chan : Nat) : Nat :=
  c.Mins.getD chan 0

/-- getMax (movement.py lines 72-73). -/
def Controller.getMax (c : Controller) (chan : Nat) : Nat :=
  c.Maxs.getD chan 0

/-- The 14-bit encoding, low 7 bits (movement.py line 90). -/
def encodeLsb (value : Nat) : Nat := value &&& 0x7f

/-- The 14-bit encoding, next 7 bits (movement.py line 91). -/
def encodeMsb (value : Nat) : Nat := (value >>> 7) &&& 0x7f

/-- The position decode (movement.py line 130): full 8-bit shift of the
second response byte plus the first. -/
def decodePosition (lsb msb : Nat) : Nat := (msb <<< 8) + lsb

/-- The clamp of setTarget, movement.py lines 83-88: if Min is defined and
the target is below it, force to Min; then, if Max is defined and the
value is above it, force to Max. The two steps run in this order and
independently. -/
def clampTarget (mn mx target : Nat) : Nat :=
  let target1 := if mn > 0 ∧ target < mn then mn else target
  if mx > 0 ∧ target1 > mx then mx else target1

/-- setTarget (movement.py lines 82-95): clamp against the stored bounds,
split into two 7-bit bytes, send opcode 0x04 with channel and both bytes,
and record the sent value in the Targets table. The record happens after
the send, so a failed write leaves the table unchanged. -/
def Controller.setTarget (c : Controller) (chan target : Nat) :
    Controller × Except ControllerError Unit :=
  let target := clampTarget (c.Mins.getD chan 0) (c.Maxs.getD chan 0) target
  match c.sendCmd [0x04, chan, encodeLsb target, encodeMsb target] with
  | (c1, .error e) => (c1, .error e)
  | (c1, .ok _) => ({ c1 with Targets := c1.Targets.set chan target }, .ok ())

/-- setSpeed (movement.py lines 102-106): opcode 0x07, same 14-bit split,
no clamp and no table update. -/
def Controller.setSpeed (c : Controller) (chan speed : Nat) :
    Controller × Except ControllerError Unit :=
  c.sendCmd [0x07, chan, encodeLsb speed, encodeMsb speed]

/-- setAccel (movement.py lines 112-116): opcode 0x09, same 14-bit split. -/
def Controller.setAccel (c : Controller) (chan accel : Nat) :
    Controller × Except ControllerError Unit :=
  c.sendCmd [0x09, chan, encodeLsb accel, encodeMsb accel]

/-- getPosition (movement.py lines 125-130): send opcode 0x10 with the
channel, read two response bytes lsb then msb, return (msb shifted left
by 8) + lsb. The Targets table is not touched. -/
def Controller.getPosition (c : Controller) (chan : Nat) :
    Controller × Except ControllerError Nat :=
  match c.sendCmd [0x10, chan] with
  | (c1, .error e) => (c1, .error e)
  | (c1, .ok _) =>
    match c1.usbRead with
    | (c2, .error e) => (c2, .error e)
    | (c2, .ok lsb) =>
      match c2.usbRead with
      | (c3, .error e) => (c3, .error e)
      | (c3, .ok msb) => (c3, .ok (decodePosition lsb msb))

/-- isMoving (movement.py lines 139-143): when the stored target is
positive, query the position and report whether it differs from the
stored target; otherwise return false without touching the transport. -/
def Controller.isMoving (c : Controller) (chan : Nat) :
    Controller × Except ControllerError Bool :=
  if c.Targets.getD chan 0 > 0 then
    match c.getPosition chan with
    | (c1, .error e) => (c1, .error e)
    | (c1, .ok pos) =>
      if pos ≠ c1.Targets.getD chan 0 then (c1, .ok true) else (c1, .ok false)
  else (c, .ok false)

/-- getMovingState (movement.py lines 148-154): send opcode 0x13, read one
response byte, and compare the read result against chr(0). Under Python 3
the read result is a bytes object while chr(0) is a str, so the equality
test compares values of different types. -/
def Controller.getMovingState (c : Controller) :
    Controller × Except ControllerError Bool :=
  match c.sendCmd [0x13] with
  | (c1, .error e) => (c1, .error e)
  | (c1, .ok _) =>
    match c1.usbRead with
    | (c2, .error e) => (c2, .error e)
    | (c2, .ok b) =>
      if pyEq (.pybytes [b]) (.pystr [0]) then (c2, .ok false) else (c2, .ok true)

/-- runScriptSub (movement.py lines 159-163): opcode 0x27 with the
subroutine number. -/
def Controller.runScriptSub (c : Controller) (subNumber : Nat) :
    Controller × Except ControllerError Unit :=
  c.sendCmd [0x27, subNumber]

/-- stopScript (movement.py lines 166-168): opcode 0x24, no data bytes. -/
def Controller.stopScript (c : Controller) :
    Controller × Except ControllerError Unit :=
  c.sendCmd [0x24]

theorem encodeLsb_eq_mod (v : Nat) : encodeLsb v = v % 128 := by
  have h := Nat.and_pow_two_sub_one_eq_mod v 7
  norm_num at h
  exact h

theorem encodeMsb_eq (v : Nat) : encodeMsb v = v / 128 % 128 := by
  have h := Nat.and_pow_two_sub_one_eq_mod (v >>> 7) 7
  norm_num at h
  rw [encodeMsb, h, Nat.shiftRight_eq_div_pow]

theorem decodePosition_eq (lsb msb : Nat) : decodePosition lsb msb = msb * 256 + lsb := by
  rw [decodePosition, Nat.shiftLeft_eq]

theorem sendCmd_ok (c : Controller) (cmd : List Nat)
    (hop : c.usbClosed = false) (hf : c.usbFaulty = false) :
    c.sendCmd cmd = ({ c with usbWritten := c.usbWritten ++ (c.PololuCmd ++ cmd) }, .ok ()) := by
  unfold Controller.sendCmd Controller.usbWrite
  rw [hop, hf]
  simp

theorem sendCmd_Targets (c : Controller) (cmd : List Nat) :
    (c.sendCmd cmd).1.Targets = c.Targets := by
  unfold Controller.sendCmd Controller.usbWrite
  split
  · rfl
  · split <;> rfl

theorem usbRead_Targets (c : Controller) :
    (c.usbRead).1.Targets = c.Targets := by
  unfold Controller.usbRead
  split
  · rfl
  · split <;> rfl

example (l : List Nat) (i j : Nat) (a : Nat) (h : j ≠ i) : (l.set i a).getD j 0 = l.getD j 0 := by
  simp [List.getD, List.getElem?_set_ne (Ne.symm h)]

theorem getPosition_Targets (c : Controller) (chan : Nat) :
    (c.getPosition chan).1.Targets = c.Targets := by
  unfold Controller.getPosition
  split
  next c1 e heq =>
    have h := sendCmd_Targets c [0x10, chan]
    rw [heq] at h
    exact h
  next c1 u heq =>
    have h1 := sendCmd_Targets c [0x10, chan]
    rw [heq] at h1
    split
    next c2 e heq2 =>
      have h2 := usbRead_Targets c1
      rw [heq2] at h2
      exact h2.trans h1
    next c2 lsb heq2 =>
      have h2 := usbRead_Targets c1
      rw [heq2] at h2
      split
      next c3 e heq3 =>
        have h3 := usbRead_Targets c2
        rw [heq3] at h3
        exact (h3.trans h2).trans h1
      next c3 msb heq3 =>
        have h3 := usbRead_Targets c2
        rw [heq3] at h3
        exact (h3.trans h2).trans h1

theorem setTarget_ok (c : Controller) (chan target : Nat)
    (hop : c.usbClosed = false) (hf : c.usbFaulty = false) :
    c.setTarget chan target =
      ({ c with
          usbWritten := c.usbWritten ++ (c.PololuCmd ++
            [0x04, chan,
             encodeLsb (clampTarget (c.Mins.getD chan 0) (c.Maxs.getD chan 0) target),
             encodeMsb (clampTarget (c.Mins.getD chan 0) (c.Maxs.getD chan 0) target)]),
          Targets := c.Targets.set chan
            (clampTarget (c.Mins.getD chan 0) (c.Maxs.getD chan 0) target) },
       .ok ()) := by
  unfold Controller.setTarget
  simp only []
  rw [sendCmd_ok c _ hop hf]

/-- C1: setTarget applies the min bound and the max bound independently and
in sequence, min-clamp first and max-clamp second; the clamped value is
both stored and sent; when min > max > 0 the result is always max; and
setTarget(1, 8000) after setRange(1, 5000, 7000) stores and sends 7000. -/
theorem setTarget_min_then_max (c : Controller) (chan target : Nat)
    (hop : c.usbClosed = false) (hf : c.usbFaulty = false) :
    (c.setTarget chan target =
      ({ c with
          usbWritten := c.usbWritten ++ (c.PololuCmd ++
            [0x04, chan,
             encodeLsb (clampTarget (c.Mins.getD chan 0) (c.Maxs.getD chan 0) target),
             encodeMsb (clampTarget (c.Mins.getD chan 0) (c.Maxs.getD chan 0) target)]),
          Targets := c.Targets.set chan
            (clampTarget (c.Mins.getD chan 0) (c.Maxs.getD chan 0) target) },
       .ok ()))
    ∧ (∀ mn mx t, mn > 0 → t < mn →
        clampTarget mn mx t = if mx > 0 ∧ mn > mx then mx else mn)
    ∧ (∀ mn mx t, mx > 0 → mn > mx → clampTarget mn mx t = mx)
    ∧ (∀ mn mx t, ¬(mn > 0 ∧ t < mn) → mx > 0 → t > mx → clampTarget mn mx t = mx)
    ∧ (((Controller.init 0x0c []).setRange 1 5000 7000).setTarget 1 8000).1.Targets.getD 1 0 = 7000
    ∧ (((Controller.init 0x0c []).setRange 1 5000 7000).setTarget 1 8000).1.usbWritten =
        [0xaa, 0x0c, 0x04, 1, encodeLsb 7000, encodeMsb 7000] := by
  refine ⟨setTarget_ok c chan target hop hf, ?_, ?_, ?_, by decide, by decide⟩
  · intro mn mx t hmn ht
    unfold clampTarget
    have h1 : (if mn > 0 ∧ t < mn then mn else t) = mn := if_pos ⟨hmn, ht⟩
    rw [h1]
  · intro mn mx t hmx hgt
    unfold clampTarget
    by_cases h1 : mn > 0 ∧ t < mn
    · have e1 : (if mn > 0 ∧ t < mn then mn else t) = mn := if_pos h1
      rw [e1]
      have e2 : (if mx > 0 ∧ mn > mx then mx else mn) = mx := if_pos ⟨hmx, hgt⟩
      rw [e2]
    · have e1 : (if mn > 0 ∧ t < mn then mn else t) = t := if_neg h1
      rw [e1]
      have e2 : (if mx > 0 ∧ t > mx then mx else t) = mx := if_pos ⟨hmx, by omega⟩
      rw [e2]
  · intro mn mx t hnomin hmx hgt
    unfold clampTarget
    have e1 : (if mn > 0 ∧ t < mn then mn else t) = t := if_neg hnomin
    rw [e1]
    have e2 : (if mx > 0 ∧ t > mx then mx else t) = mx := if_pos ⟨hmx, hgt⟩
    rw [e2]

/-- C1 witness at the scenario input. -/
theorem setTarget_min_then_max_witness :
    (((Controller.init 0x0c []).setRange 1 5000 7000).setTarget 1 8000).1.Targets.getD 1 0 = 7000 :=
  (setTarget_min_then_max ((Controller.init 0x0c []).setRange 1 5000 7000) 1 8000 rfl rfl).2.2.2.2.1

/-- C2: with both bounds zero, setTarget writes exactly the one contiguous
frame 0xAA, device, 0x04, chan, target low 7 bits, next 7 bits, and
stores target unmodified. -/
theorem setTarget_unclamped_frame (c : Controller) (d chan target : Nat)
    (hd : c.PololuCmd = [0xaa, d]) (_hch : chan < 24) (_ht : target ≤ 16383)
    (hmin : c.Mins.getD chan 0 = 0) (hmax : c.Maxs.getD chan 0 = 0)
    (hop : c.usbClosed = false) (hf : c.usbFaulty = false) :
    c.setTarget chan target =
      ({ c with
          usbWritten := c.usbWritten ++
            [0xaa, d, 0x04, chan, target &&& 0x7f, (target >>> 7) &&& 0x7f],
          Targets := c.Targets.set chan target }, .ok ()) := by
  rw [setTarget_ok c chan target hop hf, hmin, hmax, hd]
  have hcl : clampTarget 0 0 target = target := by
    unfold clampTarget
    simp
  rw [hcl]
  rfl

/-- C2 witness at a concrete fresh controller. -/
theorem setTarget_unclamped_frame_witness :
    (Controller.init 0x0c []).setTarget 5 6000 =
      ({ Controller.init 0x0c [] with
          usbWritten := (Controller.init 0x0c []).usbWritten ++
            [0xaa, 0x0c, 0x04, 5, 6000 &&& 0x7f, (6000 >>> 7) &&& 0x7f],
          Targets := (Controller.init 0x0c []).Targets.set 5 6000 }, .ok ()) :=
  setTarget_unclamped_frame (Controller.init 0x0c []) 0x0c 5 6000 rfl
    (by decide) (by decide) (by decide) (by decide) rfl rfl

/-- C3 counterexample: the encode of 128 decodes to 256, not back to 128,
because getPosition recombines with a full 8-bit shift while setTarget
masked the high byte after a 7-bit shift. -/
theorem roundtrip_fails_at_128 :
    decodePosition (encodeLsb 128) (encodeMsb 128) = 256 ∧
    decodePosition (encodeLsb 128) (encodeMsb 128) ≠ 128 := by decide

/-- C3 amended: for v in [0, 16383] the encode then decode round-trip
returns v exactly when v < 128, that is when the high 7-bit byte is 0. -/
theorem roundtrip_iff_lt_128 (v : Nat) (hv : v ≤ 16383) :
    decodePosition (encodeLsb v) (encodeMsb v) = v ↔ v < 128 := by
  rw [decodePosition_eq, encodeLsb_eq_mod, encodeMsb_eq]
  omega

/-- C3 witness at v = 100. -/
theorem roundtrip_iff_lt_128_witness :
    (decodePosition (encodeLsb 100) (encodeMsb 100) = 100 ↔ 100 < 128) :=
  roundtrip_iff_lt_128 100 (by decide)

/-- C7 counterexample: the scenario frame of the claim names data byte
0x4C, but the low 7 bits of 6900 are 0x74. -/
theorem scenario6900_claimed_frame_false :
    (((Controller.init 0x0c []).setRange 1 5000 7000).setTarget 1 6900).1.usbWritten ≠
      [0xaa, 0x0c, 0x04, 0x01, 0x4c, 0x35] := by decide

/-- C7 amended: the scenario transmits 0xAA 0x0C 0x04 0x01 0x74 0x35. -/
theorem scenario6900_frame :
    (((Controller.init 0x0c []).setRange 1 5000 7000).setTarget 1 6900).1.usbWritten =
      [0xaa, 0x0c, 0x04, 0x01, 0x74, 0x35] := by decide

/-- C4: the Targets table entry of a channel is mutated only by a
successful setTarget on that channel: getPosition preserves the whole
table, a setTarget whose write fails leaves the table unchanged, and a
setTarget on chan leaves every other entry unchanged. -/
theorem targets_mutation_discipline (c : Controller) (chan target : Nat) :
    ((c.getPosition chan).1.Targets = c.Targets)
    ∧ (∀ e, (c.setTarget chan target).2 = .error e →
        (c.setTarget chan target).1.Targets = c.Targets)
    ∧ (∀ j, j ≠ chan →
        (c.setTarget chan target).1.Targets.getD j 0 = c.Targets.getD j 0) := by
  refine ⟨getPosition_Targets c chan, ?_, ?_⟩
  · intro e
    unfold Controller.setTarget
    simp only []
    split
    next c1 e1 heq =>
      intro _
      have h := sendCmd_Targets c
        [0x04, chan,
         encodeLsb (clampTarget (c.Mins.getD chan 0) (c.Maxs.getD chan 0) target),
         encodeMsb (clampTarget (c.Mins.getD chan 0) (c.Maxs.getD chan 0) target)]
      rw [heq] at h
      exact h
    next c1 u heq =>
      intro hcontra
      exact absurd hcontra (by simp)
  · intro j hj
    unfold Controller.setTarget
    simp only []
    split
    next c1 e1 heq =>
      have h := sendCmd_Targets c
        [0x04, chan,
         encodeLsb (clampTarget (c.Mins.getD chan 0) (c.Maxs.getD chan 0) target),
         encodeMsb (clampTarget (c.Mins.getD chan 0) (c.Maxs.getD chan 0) target)]
      rw [heq] at h
      rw [show (c1, Except.error (α := Unit) e1).1 = c1 from rfl, h]
    next c1 u heq =>
      have h := sendCmd_Targets c
        [0x04, chan,
         encodeLsb (clampTarget (c.Mins.getD chan 0) (c.Maxs.getD chan 0) target),
         encodeMsb (clampTarget (c.Mins.getD chan 0) (c.Maxs.getD chan 0) target)]
      rw [heq] at h
      show (c1.Targets.set chan
        (clampTarget (c.Mins.getD chan 0) (c.Maxs.getD chan 0) target)).getD j 0 =
        c.Targets.getD j 0
      have h2 : c1.Targets = c.Targets := h
      rw [h2]
      simp only [List.getD, List.get?_eq_getElem?]
      rw [List.getElem?_set_ne (Ne.symm hj)]

/-- C4 witness: getPosition on a fresh controller preserves the table, and
a setTarget after close leaves the table unchanged. -/
theorem targets_mutation_discipline_witness :
    (((Controller.init 0x0c [10, 20]).getPosition 0).1.Targets =
      (Controller.init 0x0c [10, 20]).Targets) ∧
    ((((Controller.init 0x0c []).close).setTarget 1 6000).1.Targets =
      ((Controller.init 0x0c []).close).Targets) :=
  ⟨(targets_mutation_discipline (Controller.init 0x0c [10, 20]) 0 0).1,
   (targets_mutation_discipline ((Controller.init 0x0c []).close) 1 6000).2.1
     .closedControllerError rfl⟩

/-- C5: isMoving returns false whenever the stored target of the channel
is 0, without even querying the device; and with a positive stored target
it returns true exactly when the queried position differs from the stored
target. -/
theorem isMoving_spec (c : Controller) (chan : Nat) :
    (c.Targets.getD chan 0 = 0 → c.isMoving chan = (c, .ok false))
    ∧ (∀ c1 pos, 0 < c.Targets.getD chan 0 → c.getPosition chan = (c1, .ok pos) →
        c.isMoving chan = (c1, .ok (decide (pos ≠ c.Targets.getD chan 0)))) := by
  constructor
  · intro h0
    unfold Controller.isMoving
    rw [h0]
    simp
  · intro c1 pos hpos heq
    unfold Controller.isMoving
    rw [if_pos hpos, heq]
    have ht : c1.Targets = c.Targets := by
      have h := getPosition_Targets c chan
      rw [heq] at h
      exact h
    show (if pos ≠ c1.Targets.getD chan 0 then (c1, Except.ok true)
      else (c1, Except.ok false)) = (c1, Except.ok (decide (pos ≠ c.Targets.getD chan 0)))
    rw [ht]
    by_cases hne : pos ≠ c.Targets.getD chan 0
    · rw [if_pos hne, decide_eq_true hne]
    · rw [if_neg hne, decide_eq_false hne]

/-- C5 witness: a fresh controller reports not moving on an uncommanded
channel, and a controller with stored target 7000 on channel 1 whose
device answers position 13912 reports moving. -/
theorem isMoving_spec_witness :
    ((Controller.init 0x0c []).isMoving 3 = (Controller.init 0x0c [], .ok false)) ∧
    (({ Controller.init 0x0c [88, 54] with
        Targets := (List.replicate 24 0).set 1 7000 } : Controller).isMoving 1 =
      ({ Controller.init 0x0c [88, 54] with
          Targets := (List.replicate 24 0).set 1 7000
          usbWritten := [0xaa, 0x0c, 0x10, 1]
          usbPending := [] }, .ok true)) := by
  constructor
  · exact (isMoving_spec (Controller.init 0x0c []) 3).1 rfl
  · have h := (isMoving_spec ({ Controller.init 0x0c [88, 54] with
      Targets := (List.replicate 24 0).set 1 7000 } : Controller) 1).2
      ({ Controller.init 0x0c [88, 54] with
          Targets := (List.replicate 24 0).set 1 7000
          usbWritten := [0xaa, 0x0c, 0x10, 1]
          usbPending := [] }) 13912 (by decide) rfl
    exact h

/-- C6: under Python 3 the response byte comparison in getMovingState
tests a bytes object against a str, which are never equal, so the
response byte 0 yields true rather than the documented false; the query
frame 0xAA 0x0C 0x13 is still sent and exactly one byte is consumed. -/
theorem getMovingState_zero_byte_returns_true :
    ((Controller.init 0x0c [0]).getMovingState).2 = .ok true ∧
    ((Controller.init 0x0c [0]).getMovingState).1.usbWritten = [0xaa, 0x0c, 0x13] ∧
    ((Controller.init 0x0c [0]).getMovingState).1.usbPending = [] := by
  refine ⟨rfl, by decide, by decide⟩

/-- C8 counterexample: setRange is one of the controller operations, and
after close it still completes normally and mutates the bounds tables
instead of failing with ClosedControllerError, because it performs no
transport access at all. -/
theorem setRange_after_close_succeeds :
    ((((Controller.init 0x0c []).close).setRange 1 5000 7000).Mins.getD 1 0 = 5000) ∧
    ((((Controller.init 0x0c []).close).setRange 1 5000 7000).Maxs.getD 1 0 = 7000) := by
  refine ⟨by decide, by decide⟩

/-- C8 amended: after close, every transport-touching operation, namely
setTarget, setSpeed, setAccel, getPosition, getMovingState, runScriptSub,
stopScript, and isMoving on a channel with positive stored target, fails
with ClosedControllerError and writes no bytes to the transport, and the
failed setTarget leaves the Targets table unchanged; while the operations
that never touch the transport, namely setRange, getMin, getMax, and
isMoving on a never-commanded channel, still complete normally after
close. -/
theorem closed_transport_ops_fail (c : Controller)
    (chan target speed accel sub mn mx : Nat) :
    ((c.close.setTarget chan target).2 = .error .closedControllerError)
    ∧ ((c.close.setTarget chan target).1.usbWritten = c.usbWritten)
    ∧ ((c.close.setTarget chan target).1.Targets = c.Targets)
    ∧ ((c.close.setSpeed chan speed).2 = .error .closedControllerError)
    ∧ ((c.close.setSpeed chan speed).1.usbWritten = c.usbWritten)
    ∧ ((c.close.setAccel chan accel).2 = .error .closedControllerError)
    ∧ ((c.close.setAccel chan accel).1.usbWritten = c.usbWritten)
    ∧ ((c.close.getPosition chan).2 = .error .closedControllerError)
    ∧ ((c.close.getPosition chan).1.usbWritten = c.usbWritten)
    ∧ ((c.close.getMovingState).2 = .error .closedControllerError)
    ∧ ((c.close.getMovingState).1.usbWritten = c.usbWritten)
    ∧ ((c.close.runScriptSub sub).2 = .error .closedControllerError)
    ∧ ((c.close.runScriptSub sub).1.usbWritten = c.usbWritten)
    ∧ ((c.close.stopScript).2 = .error .closedControllerError)
    ∧ ((c.close.stopScript).1.usbWritten = c.usbWritten)
    ∧ (0 < c.Targets.getD chan 0 →
        (c.close.isMoving chan).2 = .error .closedControllerError
        ∧ (c.close.isMoving chan).1.usbWritten = c.usbWritten)
    ∧ (c.close.setRange chan mn mx =
        { c.close with Mins := c.Mins.set chan mn, Maxs := c.Maxs.set chan mx })
    ∧ ((c.close.setRange chan mn mx).usbWritten = c.usbWritten)
    ∧ (c.close.getMin chan = c.getMin chan)
    ∧ (c.close.getMax chan = c.getMax chan)
    ∧ (c.Targets.getD chan 0 = 0 → c.close.isMoving chan = (c.close, .ok false)) := by
  have hw : ∀ cmd, c.close.sendCmd cmd = (c.close, .error .closedControllerError) := by
    intro cmd
    unfold Controller.sendCmd Controller.usbWrite Controller.close
    simp
  have hst : c.close.setTarget chan target = (c.close, .error .closedControllerError) := by
    unfold Controller.setTarget
    simp only []
    rw [hw]
  have hsp : c.close.setSpeed chan speed = (c.close, .error .closedControllerError) := by
    unfold Controller.setSpeed
    rw [hw]
  have hsa : c.close.setAccel chan accel = (c.close, .error .closedControllerError) := by
    unfold Controller.setAccel
    rw [hw]
  have hgp : c.close.getPosition chan = (c.close, .error .closedControllerError) := by
    unfold Controller.getPosition
    rw [hw]
  have hgms : c.close.getMovingState = (c.close, .error .closedControllerError) := by
    unfold Controller.getMovingState
    rw [hw]
  have hrs : c.close.runScriptSub sub = (c.close, .error .closedControllerError) := by
    unfold Controller.runScriptSub
    rw [hw]
  have hss : c.close.stopScript = (c.close, .error .closedControllerError) := by
    unfold Controller.stopScript
    rw [hw]
  have him : 0 < c.Targets.getD chan 0 →
      c.close.isMoving chan = (c.close, .error .closedControllerError) := by
    intro hpos
    unfold Controller.isMoving
    have hpos2 : 0 < c.close.Targets.getD chan 0 := hpos
    rw [if_pos hpos2, hgp]
  refine ⟨?_, ?_, ?_, ?_, ?_, ?_, ?_, ?_, ?_, ?_, ?_, ?_, ?_, ?_, ?_, ?_, ?_, ?_, ?_, ?_, ?_⟩
  · rw [hst]
  · rw [hst]
    rfl
  · rw [hst]
    rfl
  · rw [hsp]
  · rw [hsp]
    rfl
  · rw [hsa]
  · rw [hsa]
    rfl
  · rw [hgp]
  · rw [hgp]
    rfl
  · rw [hgms]
  · rw [hgms]
    rfl
  · rw [hrs]
  · rw [hrs]
    rfl
  · rw [hss]
  · rw [hss]
    rfl
  · intro hpos
    rw [him hpos]
    exact ⟨rfl, rfl⟩
  · rfl
  · rfl
  · rfl
  · rfl
  · intro h0
    unfold Controller.isMoving
    have h0c : c.close.Targets.getD chan 0 = 0 := h0
    rw [h0c]
    simp

/-- C8 witness: a freshly constructed then closed controller rejects a
setTarget with ClosedControllerError writing nothing, rejects an isMoving
on a commanded channel, and still answers getMin and an isMoving on a
never-commanded channel normally. -/
theorem closed_transport_ops_fail_witness :
    (((Controller.init 0x0c []).close.setTarget 1 6000).2 =
      .error .closedControllerError) ∧
    (((Controller.init 0x0c []).close.setTarget 1 6000).1.usbWritten =
      (Controller.init 0x0c []).usbWritten) ∧
    ((({ Controller.init 0x0c [] with
        Targets := (List.replicate 24 0).set 1 7000 } : Controller).close.isMoving 1).2 =
      .error .closedControllerError) ∧
    ((Controller.init 0x0c []).close.getMin 1 = (Controller.init 0x0c []).getMin 1) ∧
    ((Controller.init 0x0c []).close.isMoving 3 =
      ((Controller.init 0x0c []).close, .ok false)) :=
  ⟨(closed_transport_ops_fail (Controller.init 0x0c []) 1 6000 0 0 0 0 0).1,
   (closed_transport_ops_fail (Controller.init 0x0c []) 1 6000 0 0 0 0 0).2.1,
   ((closed_transport_ops_fail ({ Controller.init 0x0c [] with
      Targets := (List.replicate 24 0).set 1 7000 } : Controller)
      1 0 0 0 0 0 0).2.2.2.2.2.2.2.2.2.2.2.2.2.2.2.1 (by decide)).1,
   (closed_transport_ops_fail (Controller.init 0x0c [])
      1 6000 0 0 0 0 0).2.2.2.2.2.2.2.2.2.2.2.2.2.2.2.2.2.2.1,
   (closed_transport_ops_fail (Controller.init 0x0c [])
      3 6000 0 0 0 0 0).2.2.2.2.2.2.2.2.2.2.2.2.2.2.2.2.2.2.2.2 rfl⟩

/-- C9 counterexample: at accel = 128 the transmitted frame ends in byte
1, not 0. -/
theorem setAccel_128_last_byte_one :
    ((((Controller.init 0x0c []).setAccel 0 128).1.usbWritten).getLastD 0 = 1) ∧
    ((((Controller.init 0x0c []).setAccel 0 128).1.usbWritten).getLastD 0 ≠ 0) := by
  refine ⟨by decide, by decide⟩

/-- C9 amended: for accel in [0, 255] setAccel sends opcode 0x09 with the
14-bit encoding of accel, whose upper data byte is 0 exactly when
accel < 128 and 1 for accel in [128, 255]. -/
theorem setAccel_frame_msb (c : Controller) (d chan accel : Nat)
    (hd : c.PololuCmd = [0xaa, d]) (ha : accel ≤ 255)
    (hop : c.usbClosed = false) (hf : c.usbFaulty = false) :
    (c.setAccel chan accel =
      ({ c with usbWritten := c.usbWritten ++
          [0xaa, d, 0x09, chan, encodeLsb accel, encodeMsb accel] }, .ok ()))
    ∧ (encodeMsb accel = if accel < 128 then 0 else 1) := by
  constructor
  · unfold Controller.setAccel
    rw [sendCmd_ok c _ hop hf, hd]
    rfl
  · rw [encodeMsb_eq]
    split <;> omega

/-- C9 witness at accel = 200. -/
theorem setAccel_frame_msb_witness :
    encodeMsb 200 = if 200 < 128 then 0 else 1 :=
  (setAccel_frame_msb (Controller.init 0x0c []) 0x0c 2 200 rfl (by decide) rfl rfl).2

theorem getPosition_ok (c : Controller) (chan lsb msb : Nat) (rest : List Nat)
    (hop : c.usbClosed = false) (hf : c.usbFaulty = false)
    (hp : c.usbPending = lsb :: msb :: rest) :
    c.getPosition chan =
      ({ c with usbWritten := c.usbWritten ++ (c.PololuCmd ++ [0x10, chan])
                usbPending := rest }, .ok (decodePosition lsb msb)) := by
  unfold Controller.getPosition Controller.sendCmd Controller.usbWrite Controller.usbRead
  rw [hop, hf]
  simp [hp]

/-- C10: getPosition answers (msb shifted left by 8) plus lsb for response
bytes (lsb, msb), a value that ranges up to 65535 and exceeds 16383, the
largest value setTarget can encode, whenever msb is at least 64. -/
theorem getPosition_decode_range (c : Controller) (chan lsb msb : Nat) (rest : List Nat)
    (hl : lsb ≤ 255) (hm : msb ≤ 255)
    (hp : c.usbPending = lsb :: msb :: rest)
    (hop : c.usbClosed = false) (hf : c.usbFaulty = false) :
    ((c.getPosition chan).2 = .ok ((msb <<< 8) + lsb))
    ∧ ((msb <<< 8) + lsb ≤ 65535)
    ∧ (64 ≤ msb → 16383 < (msb <<< 8) + lsb) := by
  have harith : msb <<< 8 = msb * 256 := by
    rw [Nat.shiftLeft_eq]
  refine ⟨?_, by omega, fun h64 => by omega⟩
  rw [getPosition_ok c chan lsb msb rest hop hf hp]
  rfl

/-- C10 witness at response bytes (88, 54). -/
theorem getPosition_decode_range_witness :
    ((Controller.init 0x0c [88, 54]).getPosition 2).2 = .ok ((54 <<< 8) + 88) :=
  (getPosition_decode_range (Controller.init 0x0c [88, 54]) 2 88 54 []
    (by decide) (by decide) rfl rfl rfl).1
